import Mathlib

/-!
# Student attendance front end: attendance and enrollment page controllers

A shallow embedding of `static/attendance.js` and `static/enroll.js`.

Each page script keeps its state in module variables and in a handful of DOM
nodes.  Here every handler is a pure function from the state before the event
to the state after it.  What the environment decides (whether the camera is
granted, what a request returns, the frame the canvas encodes, the clock) is an
argument of the handler.  Effects the scripts only emit (dialogs, requests,
console output, exceptions that leave a handler) are appended to logs kept in
the state.  A handler runs as one step: an event arriving while an earlier
handler is suspended at an `await` is outside this model.
-/

namespace StudentAttendance

/-! ## JavaScript values -/

/-- The values a decoded JSON body can put in a property: `undefined` for a
property that is absent, the primitives, and `obj` for an object or array,
given by its reference and by the string `String(v)` yields.  A number is
given by the string `String(v)` yields ("7", "0.5", "1e+21", "Infinity"),
which determines it up to `===`: a JSON body cannot decode to `NaN`, and zero
of either sign yields "0". -/
inductive JSVal where
  | undefined
  | null
  | bool (b : Bool)
  | num (text : String)
  | str (s : String)
  | obj (ref : Nat) (text : String)
deriving DecidableEq, Repr

/-- ToBoolean, as applied by `!v`, `if (v)` and `v || w`. -/
def truthy : JSVal → Bool
  | .undefined => false
  | .null => false
  | .bool b => b
  | .num t => decide (t ≠ "0")
  | .str s => decide (s ≠ "")
  | .obj _ _ => true

/-- The operator `===`; objects compare by reference. -/
def strictEq : JSVal → JSVal → Bool
  | .undefined, .undefined => true
  | .null, .null => true
  | .bool a, .bool b => decide (a = b)
  | .num a, .num b => decide (a = b)
  | .str a, .str b => decide (a = b)
  | .obj a _, .obj b _ => decide (a = b)
  | _, _ => false

/-- ToString, as applied inside a template literal. -/
def toStr : JSVal → String
  | .undefined => "undefined"
  | .null => "null"
  | .bool true => "true"
  | .bool false => "false"
  | .num t => t
  | .str s => s
  | .obj _ t => t

/-- The string a node shows after `node.textContent = v`: `null` and
`undefined` give the empty string, anything else its ToString. -/
def toText : JSVal → String
  | .undefined => ""
  | .null => ""
  | v => toStr v

/-- The operator `a || b`. -/
def jsOr (a b : JSVal) : JSVal := if truthy a then a else b

/-- The code points `String.prototype.trim` strips: WhiteSpace and
LineTerminator of the language specification. -/
def isJsSpace (c : Char) : Bool :=
  let n := c.toNat
  n = 0x09 || n = 0x0A || n = 0x0B || n = 0x0C || n = 0x0D || n = 0x20 ||
  n = 0xA0 || n = 0x1680 || (0x2000 ≤ n && n ≤ 0x200A) || n = 0x2028 ||
  n = 0x2029 || n = 0x202F || n = 0x205F || n = 0x3000 || n = 0xFEFF

/-- The method `trim` of a string. -/
def jsTrim (s : String) : String :=
  String.mk ((s.toList.dropWhile isJsSpace).reverse.dropWhile isJsSpace).reverse

/-! ## Dialogs, requests, camera -/

/-- The options object handed to `Swal.fire`.  A field the call leaves out has
the library default.  `showLoading` records `didOpen: () => Swal.showLoading()`. -/
structure Alert where
  icon : Option String := none
  title : JSVal
  text : Option String := none
  position : Option String := none
  timer : Option Nat := none
  showConfirmButton : Bool := true
  allowOutsideClick : Bool := true
  showLoading : Bool := false
deriving DecidableEq, Repr

/-- The dialog library as the scripts use it: every `Swal.fire` so far, in
order, and the dialog now on screen.  Dialogs that close on their own timer or
by the user are not tracked. -/
structure Swal where
  fired : List Alert := []
  current : Option Alert := none
deriving DecidableEq, Repr

/-- The call `Swal.fire(a)`. -/
def Swal.fire (w : Swal) (a : Alert) : Swal :=
  { fired := w.fired ++ [a], current := some a }

/-- The call `Swal.close()`. -/
def Swal.close (w : Swal) : Swal :=
  { w with current := none }

/-- A request made with `fetch`; the constructor fixes the endpoint. -/
inductive Request where
  | login (image : String)
  | logout (student_id : JSVal)
  | enroll (student_id name course section_ room : String) (images : List String)
  | enrollFiles (student_id name course section_ room : String) (files : List String)
deriving DecidableEq, Repr

/-- The URL a request is posted to. -/
def Request.endpoint : Request → String
  | .login _ => "/api/login"
  | .logout _ => "/api/logout"
  | .enroll _ _ _ _ _ _ => "/api/enroll"
  | .enrollFiles _ _ _ _ _ _ => "/api/enroll_files"

/-- The properties the handlers read from a decoded body `j`.  A body that
decodes to `null`, on which reading a property throws, is not covered. -/
structure Response where
  status : JSVal := .undefined
  name : JSVal := .undefined
  student_id : JSVal := .undefined
  message : JSVal := .undefined
deriving DecidableEq, Repr

/-- How `await fetch(...)` followed by `await res.json()` ends: one of the two
rejects with an error carrying `message`, or the body decodes to `j`. -/
inductive Outcome where
  | failed (message : String)
  | decoded (j : Response)
deriving DecidableEq, Repr

/-- How `getUserMedia` ends: a new stream with `tracks` live tracks, or a
rejection with an error carrying `message`. -/
inductive CameraGrant where
  | granted (tracks : Nat)
  | denied (message : String)
deriving DecidableEq, Repr

/-- The media streams created so far; entry `r` lists, for each track of the
stream with reference `r`, whether the track is still live. -/
abbrev Streams := List (List Bool)

/-- The loop `stream.getTracks().forEach(t => t.stop())` on stream `r`. -/
def stopTracks (h : Streams) (r : Nat) : Streams :=
  h.modify (fun ts => ts.map (fun _ => false)) r

/-- The method `classList.add(c)`. -/
def classAdd (cs : List String) (c : String) : List String :=
  if c ∈ cs then cs else cs ++ [c]

/-- The method `classList.remove(...rs)`. -/
def classRemove (cs : List String) (rs : List String) : List String :=
  cs.filter (fun c => !(rs.contains c))

/-! ## attendance.js -/

namespace Attendance

/-- The module variables of `attendance.js` and the DOM properties it writes.
`stream` is `none` for both `undefined` and `null`; `interval` is `none` for
`undefined`.  `timers` are the interval timers now scheduled and `timerCount`
how many `setInterval` has handed out. -/
structure AttState where
  streams : Streams := []
  stream : Option Nat := none
  srcObject : Option Nat := none
  interval : Option Nat := none
  timers : List Nat := []
  timerCount : Nat := 0
  activeStudent : JSVal := .null
  logoutDisabled : Bool
  recognized : String
  confWidth : String
  confText : String
  confClasses : List String
  info : String
  swal : Swal := {}
  requests : List Request := []
  console : List String := []
  uncaught : List String := []
deriving Repr

/-- The function `captureLoop`: `interval = setInterval(..., 4000)`.  Timer
identifiers are positive. -/
def captureLoop (s : AttState) : AttState :=
  let id := s.timerCount + 1
  { s with interval := some id, timers := s.timers ++ [id], timerCount := id }

/-- The handler `startBtn.onclick`. -/
def startBtn_onclick (s : AttState) (g : CameraGrant) : AttState :=
  match g with
  | .granted n =>
    let r := s.streams.length
    captureLoop { s with
      streams := s.streams ++ [List.replicate n true]
      stream := some r
      srcObject := some r
      info := "Camera started. Detecting faces..." }
  | .denied msg =>
    let a : Alert :=
      { icon := some "error", title := .str "Unable to access camera",
        text := some msg, position := some "center" }
    { s with swal := s.swal.fire a }

/-- The function `stopCamera`. -/
def stopCamera (s : AttState) : AttState :=
  let timers :=
    match s.interval with
    | some id => if id ≠ 0 then s.timers.filter (fun t => t ≠ id) else s.timers
    | none => s.timers
  let streams :=
    match s.stream with
    | some r => stopTracks s.streams r
    | none => s.streams
  { s with
    timers := timers
    streams := streams
    stream := none
    srcObject := none
    info := "Camera stopped" }

/-- The handler `stopBtn.onclick`. -/
def stopBtn_onclick (s : AttState) : AttState :=
  let s1 := stopCamera s
  let a : Alert :=
    { icon := some "info", title := .str "Camera stopped", timer := some 1000,
      position := some "center", showConfirmButton := false }
  { s1 with swal := s1.swal.fire a }

/-- The function `handleResult`; `now` is `new Date().toLocaleTimeString()`. -/
def handleResult (s : AttState) (j : Response) (now : String) : AttState :=
  if strictEq j.status (.str "ok") then
    let name := j.name
    let s1 := { s with
      recognized := toText name
      confWidth := "100%"
      confText := "Matched"
      confClasses := classAdd s.confClasses "bg-success"
      info := "Attendance marked for " ++ toStr name ++ " at " ++ now }
    if !truthy s1.activeStudent || !strictEq s1.activeStudent j.student_id then
      let a : Alert :=
        { icon := some "success",
          title := .str ("✅ Attendance marked for " ++ toStr name),
          position := some "center", timer := some 2000,
          showConfirmButton := false }
      { s1 with
        activeStudent := j.student_id
        logoutDisabled := false
        swal := s1.swal.fire a }
    else s1
  else if strictEq j.status (.str "unknown") then
    let a : Alert :=
      { icon := some "error", title := .str "❌ Unknown person detected!",
        position := some "center", timer := some 1500,
        showConfirmButton := false }
    { s with
      recognized := "Unknown"
      confWidth := "50%"
      confText := "Unknown"
      confClasses := classAdd (classRemove s.confClasses ["bg-success"]) "bg-danger"
      info := "⚠️ Unknown person detected"
      swal := s.swal.fire a }
  else if strictEq j.status (.str "error") then
    { s with
      info := toText (jsOr j.message (.str "No face detected"))
      confWidth := "20%"
      confText := "No face"
      confClasses := classAdd (classRemove s.confClasses ["bg-success"]) "bg-warning" }
  else s

/-- One run of the interval callback of `captureLoop`: `frame` is what
`canvas.toDataURL` returns and `o` how the request ends. -/
def captureTick (s : AttState) (frame : String) (o : Outcome) (now : String) : AttState :=
  let s1 := { s with requests := s.requests ++ [Request.login frame] }
  match o with
  | .decoded j => handleResult s1 j now
  | .failed msg => { s1 with console := s1.console ++ ["Recognition error: " ++ msg] }

/-- The handler `logoutBtn.onclick`; `o` is how the logout request ends. -/
def logoutBtn_onclick (s : AttState) (o : Outcome) : AttState :=
  if !truthy s.activeStudent then
    let a : Alert :=
      { icon := some "info", title := .str "No active student", position := some "center" }
    { s with swal := s.swal.fire a }
  else
    let s1 := { s with requests := s.requests ++ [Request.logout s.activeStudent] }
    match o with
    | .failed msg => { s1 with uncaught := s1.uncaught ++ [msg] }
    | .decoded j =>
      let s2 :=
        if strictEq j.status (.str "ok") then
          let a : Alert :=
            { icon := some "success", title := .str "✅ Logout recorded",
              position := some "center", timer := some 1500,
              showConfirmButton := false }
          { s1 with swal := s1.swal.fire a }
        else
          let a : Alert :=
            { icon := some "error", title := jsOr j.message (.str "Logout error"),
              position := some "center" }
          { s1 with swal := s1.swal.fire a }
      { s2 with
        activeStudent := .null
        logoutDisabled := true
        recognized := "None"
        confWidth := "0%"
        confText := "0%"
        confClasses := classRemove s2.confClasses ["bg-success", "bg-danger", "bg-warning"]
        info := "Waiting for recognition..." }

end Attendance

/-! ## enroll.js -/

namespace Enroll

/-- An `img` element appended to `#thumbs`. -/
structure Thumb where
  src : String
  className : String
  width : String
deriving DecidableEq, Repr

/-- The values typed into the five inputs of the form, before trimming. -/
structure Form where
  student_id : String
  name : String
  course : String
  section_ : String
  room : String
deriving DecidableEq, Repr

/-- The module variables of `enroll.js` and the DOM properties it writes.
`stream` is `none` for both `undefined` and `null`; `thumbs` are the children
of `#thumbs`, `count` the text of `#countSpan`, `uploadFiles` the files
selected in `#uploadFiles`. -/
structure EnrollState where
  streams : Streams := []
  stream : Option Nat := none
  srcObject : Option Nat := none
  photos : List String := []
  thumbs : List Thumb := []
  count : String
  cameraStatus : String
  cameraStatusColor : String
  uploadFiles : List String := []
  swal : Swal := {}
  requests : List Request := []
  uncaught : List String := []
deriving Repr

/-- The handler `startBtn.onclick`. -/
def startBtn_onclick (s : EnrollState) (g : CameraGrant) : EnrollState :=
  match g with
  | .granted n =>
    let r := s.streams.length
    { s with
      streams := s.streams ++ [List.replicate n true]
      stream := some r
      srcObject := some r
      cameraStatus := "Camera started"
      cameraStatusColor := "green" }
  | .denied msg =>
    let a : Alert :=
      { icon := some "error", title := .str "Unable to access camera",
        text := some msg, position := some "center" }
    { s with swal := s.swal.fire a }

/-- The handler `stopBtn.onclick`. -/
def stopBtn_onclick (s : EnrollState) : EnrollState :=
  let s1 :=
    match s.stream with
    | some r => { s with streams := stopTracks s.streams r, stream := none }
    | none => s
  { s1 with srcObject := none, cameraStatus := "Stopped", cameraStatusColor := "red" }

/-- The handler `takeBtn.onclick`; `frame` is what `canvas.toDataURL` returns. -/
def takeBtn_onclick (s : EnrollState) (frame : String) : EnrollState :=
  match s.stream with
  | none =>
    let a : Alert :=
      { icon := some "warning", title := .str "Start camera first",
        position := some "center", timer := some 1500, showConfirmButton := false }
    { s with swal := s.swal.fire a }
  | some _ =>
    let photos := s.photos ++ [frame]
    let img : Thumb := { src := frame, className := "m-1 rounded border", width := "80px" }
    let a : Alert :=
      { icon := some "info", title := .str "📸 Captured successfully!",
        position := some "center", timer := some 800, showConfirmButton := false }
    { s with
      photos := photos
      thumbs := s.thumbs ++ [img]
      count := toString photos.length ++ " images"
      swal := s.swal.fire a }

/-- The icon both enrollment paths pick from the status of the response. -/
def statusIcon (status : JSVal) : String :=
  if strictEq status (.str "ok") then "success"
  else if strictEq status (.str "duplicate") then "warning"
  else "error"

/-- The handler `enrollBtn.onclick`; `o` is how the enroll request ends. -/
def enrollBtn_onclick (s : EnrollState) (f : Form) (o : Outcome) : EnrollState :=
  let sid := jsTrim f.student_id
  let name := jsTrim f.name
  let course := jsTrim f.course
  let section_ := jsTrim f.section_
  let room := jsTrim f.room
  if !truthy (.str sid) || !truthy (.str name) then
    let a : Alert :=
      { icon := some "error", title := .str "Please enter Student ID and Name",
        position := some "center" }
    { s with swal := s.swal.fire a }
  else if s.photos.length < 3 then
    let a : Alert :=
      { icon := some "warning", title := .str "Capture at least 3 photos before enrolling",
        position := some "center" }
    { s with swal := s.swal.fire a }
  else
    let progress : Alert :=
      { title := .str "Processing enrollment...",
        text := some "Please wait while we save and verify faces",
        allowOutsideClick := false, showLoading := true }
    let s1 := { s with
      swal := s.swal.fire progress
      requests := s.requests ++ [Request.enroll sid name course section_ room s.photos] }
    match o with
    | .decoded j =>
      let a : Alert :=
        { icon := some (statusIcon j.status),
          title :=
            if strictEq j.status (.str "ok")
            then .str ("✅ Student " ++ name ++ " enrolled successfully!")
            else jsOr j.message (.str "Enrollment failed"),
          position := some "center", timer := some 2500, showConfirmButton := false }
      let s2 := { s1 with swal := s1.swal.close.fire a }
      if strictEq j.status (.str "ok") then
        let s3 := { s2 with photos := [], thumbs := [], count := "0 images" }
        let s4 :=
          match s3.stream with
          | some r => { s3 with streams := stopTracks s3.streams r, srcObject := none }
          | none => s3
        { s4 with cameraStatus := "Idle" }
      else s2
    | .failed msg =>
      let a : Alert :=
        { icon := some "error", title := .str "Error during enrollment",
          text := some msg, position := some "center" }
      { s1 with swal := s1.swal.close.fire a }

/-- The `click` listener on `document`, for a click whose target is the button
`#uploadBtn`; `o` is how the upload request ends. -/
def uploadBtn_click (s : EnrollState) (f : Form) (o : Outcome) : EnrollState :=
  let sid := jsTrim f.student_id
  let name := jsTrim f.name
  let course := jsTrim f.course
  let section_ := jsTrim f.section_
  let room := jsTrim f.room
  let files := s.uploadFiles
  if !truthy (.str sid) || !truthy (.str name) || files.length = 0 then
    let a : Alert :=
      { icon := some "error", title := .str "Enter ID, Name, and select at least one photo",
        position := some "center" }
    { s with swal := s.swal.fire a }
  else
    let progress : Alert :=
      { title := .str "Uploading photos...", allowOutsideClick := false, showLoading := true }
    let s1 := { s with
      swal := s.swal.fire progress
      requests := s.requests ++ [Request.enrollFiles sid name course section_ room files] }
    match o with
    | .failed msg => { s1 with uncaught := s1.uncaught ++ [msg] }
    | .decoded j =>
      let a : Alert :=
        { icon := some (statusIcon j.status),
          title := jsOr j.message (.str "Upload completed"),
          position := some "center", timer := some 2500, showConfirmButton := false }
      let s2 := { s1 with swal := s1.swal.close.fire a }
      if strictEq j.status (.str "ok") then { s2 with uploadFiles := [] } else s2

end Enroll

/-! ## Runs of the attendance page -/

/-- The function `handleResult` applied to the same response `j` on
consecutive ticks, one per clock reading in the list. -/
def Attendance.feed (s : Attendance.AttState) (j : Response) : List String → Attendance.AttState
  | [] => s
  | now :: rest => Attendance.feed (Attendance.handleResult s j now) j rest

/-- An event on the attendance page.  `tick` is one firing of an interval
timer. -/
inductive Attendance.Event where
  | start (g : CameraGrant)
  | stop
  | tick (frame : String) (o : Outcome) (now : String)
  | logout (o : Outcome)
deriving Repr

/-- The page after one event.  An interval callback runs only while some
interval timer is scheduled. -/
def Attendance.step (s : Attendance.AttState) : Attendance.Event → Attendance.AttState
  | .start g => Attendance.startBtn_onclick s g
  | .stop => Attendance.stopBtn_onclick s
  | .tick frame o now => if s.timers = [] then s else Attendance.captureTick s frame o now
  | .logout o => Attendance.logoutBtn_onclick s o

/-- The page after a sequence of events. -/
def Attendance.run (s : Attendance.AttState) (es : List Attendance.Event) : Attendance.AttState :=
  es.foldl Attendance.step s

/-! ## Sample states and inputs -/

/-- The attendance page as loaded: the module variables as the script
initialises them, the DOM showing what a logout resets it to. -/
def Attendance.pageLoad : Attendance.AttState :=
  { logoutDisabled := true, recognized := "None", confWidth := "0%", confText := "0%",
    confClasses := [], info := "Waiting for recognition..." }

/-- The attendance page with the camera running and student S101 active. -/
def Attendance.matched : Attendance.AttState :=
  { streams := [[true]], stream := some 0, srcObject := some 0, interval := some 1,
    timers := [1], timerCount := 1, activeStudent := .str "S101",
    logoutDisabled := false, recognized := "Asha", confWidth := "100%",
    confText := "Matched", confClasses := ["bg-success"],
    info := "Attendance marked for Asha at 10:00:00" }

/-- The enrollment page after the camera was started and two frames captured. -/
def Enroll.twoPhotos : Enroll.EnrollState :=
  { streams := [[true]], stream := some 0, srcObject := some 0,
    photos := ["data:image/jpeg;base64,AAA", "data:image/jpeg;base64,BBB"],
    thumbs := [{ src := "data:image/jpeg;base64,AAA", className := "m-1 rounded border", width := "80px" },
               { src := "data:image/jpeg;base64,BBB", className := "m-1 rounded border", width := "80px" }],
    count := "2 images", cameraStatus := "Camera started", cameraStatusColor := "green" }

/-- The enrollment page after the camera was started and three frames captured,
with one file selected for upload. -/
def Enroll.threePhotos : Enroll.EnrollState :=
  { streams := [[true]], stream := some 0, srcObject := some 0,
    photos := ["data:image/jpeg;base64,AAA", "data:image/jpeg;base64,BBB",
               "data:image/jpeg;base64,CCC"],
    thumbs := [{ src := "data:image/jpeg;base64,AAA", className := "m-1 rounded border", width := "80px" },
               { src := "data:image/jpeg;base64,BBB", className := "m-1 rounded border", width := "80px" },
               { src := "data:image/jpeg;base64,CCC", className := "m-1 rounded border", width := "80px" }],
    count := "3 images", cameraStatus := "Camera started", cameraStatusColor := "green",
    uploadFiles := ["face1.jpg"] }

/-- A filled-in form with a valid identifier and name. -/
def Enroll.validForm : Enroll.Form :=
  { student_id := " S101 ", name := "Asha", course := "BCA", section_ := "A", room := "12" }

/-! ## Basic facts about the value operations -/

theorem truthy_str_false (s : String) : truthy (.str s) = false ↔ s = "" := by
  simp [truthy]

theorem strictEq_str (v : JSVal) (s : String) : strictEq v (.str s) = true ↔ v = .str s := by
  cases v <;> simp [strictEq]

theorem strictEq_self (v : JSVal) : strictEq v v = true := by
  cases v <;> simp [strictEq]

/-! ## Enrollment: validation -/

/-- C1. When the trimmed identifier is empty, or the trimmed name is empty, or
fewer than three photos are buffered, the enroll handler sends no request,
fires exactly one dialog, which has no timer and keeps its confirm button, and
changes nothing else: photo buffer, thumbnails, count display, camera
stream, video source and tracks are as before. -/
theorem enroll_validation_blocks (s : Enroll.EnrollState) (f : Enroll.Form) (o : Outcome)
    (h : jsTrim f.student_id = "" ∨ jsTrim f.name = "" ∨ s.photos.length < 3) :
    (Enroll.enrollBtn_onclick s f o).requests = s.requests ∧
    (∃ a : Alert, (Enroll.enrollBtn_onclick s f o).swal.fired = s.swal.fired ++ [a] ∧
      (Enroll.enrollBtn_onclick s f o).swal.current = some a ∧
      a.timer = none ∧ a.showConfirmButton = true ∧ a.allowOutsideClick = true) ∧
    (Enroll.enrollBtn_onclick s f o).photos = s.photos ∧
    (Enroll.enrollBtn_onclick s f o).thumbs = s.thumbs ∧
    (Enroll.enrollBtn_onclick s f o).count = s.count ∧
    (Enroll.enrollBtn_onclick s f o).stream = s.stream ∧
    (Enroll.enrollBtn_onclick s f o).srcObject = s.srcObject ∧
    (Enroll.enrollBtn_onclick s f o).streams = s.streams ∧
    (Enroll.enrollBtn_onclick s f o).cameraStatus = s.cameraStatus ∧
    (Enroll.enrollBtn_onclick s f o).uncaught = s.uncaught := by
  unfold Enroll.enrollBtn_onclick
  by_cases h1 : (!truthy (.str (jsTrim f.student_id)) || !truthy (.str (jsTrim f.name))) = true
  · rw [if_pos h1]
    exact ⟨rfl, ⟨_, rfl, rfl, rfl, rfl, rfl⟩, rfl, rfl, rfl, rfl, rfl, rfl, rfl, rfl⟩
  · have h3 : s.photos.length < 3 := by
      rcases h with h | h | h
      · exact absurd (by simp [truthy, h]) h1
      · exact absurd (by simp [truthy, h]) h1
      · exact h
    rw [if_neg h1, if_pos h3]
    exact ⟨rfl, ⟨_, rfl, rfl, rfl, rfl, rfl⟩, rfl, rfl, rfl, rfl, rfl, rfl, rfl, rfl⟩

/-- C1 at the scenario of the specification: two captured photos, valid
identifier and name, enroll clicked. -/
theorem enroll_validation_blocks_witness :
    Enroll.twoPhotos.photos.length < 3 ∧
    (Enroll.enrollBtn_onclick Enroll.twoPhotos Enroll.validForm
        (.decoded { status := .str "ok" })).photos =
      ["data:image/jpeg;base64,AAA", "data:image/jpeg;base64,BBB"] ∧
    (Enroll.enrollBtn_onclick Enroll.twoPhotos Enroll.validForm
        (.decoded { status := .str "ok" })).requests = [] :=
  have h := enroll_validation_blocks Enroll.twoPhotos Enroll.validForm
    (.decoded { status := .str "ok" }) (Or.inr (Or.inr (by decide)))
  ⟨by decide, h.2.2.1, h.1⟩

/-! ## Attendance: recognition results -/

theorem handleResult_ok_active (s : Attendance.AttState) (j : Response) (now : String)
    (hok : j.status = .str "ok") (hset : truthy s.activeStudent = true)
    (heq : strictEq s.activeStudent j.student_id = true) :
    Attendance.handleResult s j now =
      { s with
        recognized := toText j.name
        confWidth := "100%"
        confText := "Matched"
        confClasses := classAdd s.confClasses "bg-success"
        info := "Attendance marked for " ++ toStr j.name ++ " at " ++ now } := by
  have hst : strictEq j.status (.str "ok") = true := (strictEq_str _ _).2 hok
  unfold Attendance.handleResult
  simp [hst, hset, heq]

theorem handleResult_ok_new (s : Attendance.AttState) (j : Response) (now : String)
    (hok : j.status = .str "ok")
    (hnew : truthy s.activeStudent = false ∨ strictEq s.activeStudent j.student_id = false) :
    Attendance.handleResult s j now =
      { s with
        recognized := toText j.name
        confWidth := "100%"
        confText := "Matched"
        confClasses := classAdd s.confClasses "bg-success"
        info := "Attendance marked for " ++ toStr j.name ++ " at " ++ now
        activeStudent := j.student_id
        logoutDisabled := false
        swal := s.swal.fire
          { icon := some "success",
            title := .str ("✅ Attendance marked for " ++ toStr j.name),
            position := some "center", timer := some 2000,
            showConfirmButton := false } } := by
  have hst : strictEq j.status (.str "ok") = true := (strictEq_str _ _).2 hok
  unfold Attendance.handleResult
  rcases hnew with h | h <;> simp [hst, h]

theorem truthy_of_strictEq (a b : JSVal) (hb : truthy b = true)
    (h : strictEq a b = true) : truthy a = true := by
  cases a <;> cases b <;> simp_all [strictEq, truthy]

theorem feed_active (j : Response) (hok : j.status = .str "ok") (times : List String) :
    ∀ s : Attendance.AttState, truthy s.activeStudent = true →
      strictEq s.activeStudent j.student_id = true →
      (Attendance.feed s j times).swal = s.swal ∧
      (Attendance.feed s j times).activeStudent = s.activeStudent ∧
      (Attendance.feed s j times).logoutDisabled = s.logoutDisabled := by
  induction times with
  | nil => intro s _ _; exact ⟨rfl, rfl, rfl⟩
  | cons now rest ih =>
    intro s hset heq
    have h1 := handleResult_ok_active s j now hok hset heq
    have h2 := ih (Attendance.handleResult s j now) (by rw [h1]; exact hset) (by rw [h1]; exact heq)
    simp only [Attendance.feed]
    rw [h2.1, h2.2.1, h2.2.2, h1]
    exact ⟨rfl, rfl, rfl⟩

/-- C2, as stated, fails.  After one response with status "ok" and the empty
string as student_id the active student is the empty string; the same
response then has a student_id that is `===` the active student, and
`handleResult` fires the success dialog again, on every tick: three ticks
from page load fire three dialogs. -/
theorem handleResult_duplicate_counterexample :
    strictEq
      (Attendance.handleResult Attendance.pageLoad
        { status := .str "ok", name := .str "Asha", student_id := .str "" }
        "10:00:00").activeStudent (.str "") = true ∧
    (Attendance.handleResult Attendance.pageLoad
        { status := .str "ok", name := .str "Asha", student_id := .str "" }
        "10:00:00").swal.fired.length = 1 ∧
    (Attendance.handleResult
        (Attendance.handleResult Attendance.pageLoad
          { status := .str "ok", name := .str "Asha", student_id := .str "" } "10:00:00")
        { status := .str "ok", name := .str "Asha", student_id := .str "" }
        "10:00:04").swal.fired.length = 2 ∧
    (Attendance.feed Attendance.pageLoad
        { status := .str "ok", name := .str "Asha", student_id := .str "" }
        ["10:00:00", "10:00:04", "10:00:08"]).swal.fired.length = 3 := by
  refine ⟨?_, ?_, ?_, ?_⟩ <;> decide

/-- C2, amended.  For a response with status "ok" whose student_id is truthy
and is the active student of the state, `handleResult` fires no dialog and
leaves the active student and the logout control as they are: it only
rewrites the recognized name, the confidence bar and the info text.  The
same holds over any number of consecutive ticks with that response, and from
any state a response with status "ok" and a truthy student_id fires at most
one dialog over any number of consecutive ticks. -/
theorem handleResult_duplicate_suppressed (s : Attendance.AttState) (j : Response)
    (hok : j.status = .str "ok") (hid : truthy j.student_id = true)
    (heq : strictEq s.activeStudent j.student_id = true) :
    (∀ now : String,
      (Attendance.handleResult s j now).swal.fired = s.swal.fired ∧
      (Attendance.handleResult s j now).activeStudent = s.activeStudent ∧
      (Attendance.handleResult s j now).logoutDisabled = s.logoutDisabled ∧
      Attendance.handleResult s j now =
        { s with
          recognized := toText j.name
          confWidth := "100%"
          confText := "Matched"
          confClasses := classAdd s.confClasses "bg-success"
          info := "Attendance marked for " ++ toStr j.name ++ " at " ++ now }) ∧
    (∀ times : List String,
      (Attendance.feed s j times).swal.fired = s.swal.fired ∧
      (Attendance.feed s j times).activeStudent = s.activeStudent ∧
      (Attendance.feed s j times).logoutDisabled = s.logoutDisabled) ∧
    (∀ (s0 : Attendance.AttState) (times : List String),
      ∃ extra : List Alert, extra.length ≤ 1 ∧
        (Attendance.feed s0 j times).swal.fired = s0.swal.fired ++ extra) := by
  have hset : truthy s.activeStudent = true := truthy_of_strictEq _ _ hid heq
  refine ⟨?_, ?_, ?_⟩
  · intro now
    have h1 := handleResult_ok_active s j now hok hset heq
    refine ⟨?_, ?_, ?_, h1⟩ <;> rw [h1]
  · intro times
    have h := feed_active j hok times s hset heq
    exact ⟨by rw [h.1], h.2.1, h.2.2⟩
  · intro s0 times
    cases times with
    | nil => exact ⟨[], by simp, by simp [Attendance.feed]⟩
    | cons now rest =>
      simp only [Attendance.feed]
      by_cases hc : truthy s0.activeStudent = true ∧
          strictEq s0.activeStudent j.student_id = true
      · have h1 := handleResult_ok_active s0 j now hok hc.1 hc.2
        have h := feed_active j hok rest (Attendance.handleResult s0 j now)
          (by rw [h1]; exact hc.1) (by rw [h1]; exact hc.2)
        exact ⟨[], by simp, by rw [h.1, h1]; simp⟩
      · have hnew : truthy s0.activeStudent = false ∨
            strictEq s0.activeStudent j.student_id = false := by
          by_cases ht : truthy s0.activeStudent = true
          · right
            simpa using fun hh => hc ⟨ht, hh⟩
          · left
            simpa using ht
        have h1 := handleResult_ok_new s0 j now hok hnew
        have h := feed_active j hok rest (Attendance.handleResult s0 j now)
          (by rw [h1]; exact hid) (by rw [h1]; exact strictEq_self _)
        exact ⟨[_], by simp, by rw [h.1, h1]; rfl⟩

/-- C2, amended, at the matched page receiving S101 again, three ticks in a
row. -/
theorem handleResult_duplicate_suppressed_witness :
    strictEq Attendance.matched.activeStudent (.str "S101") = true ∧
    (Attendance.feed Attendance.matched
        { status := .str "ok", name := .str "Asha", student_id := .str "S101" }
        ["10:00:04", "10:00:08", "10:00:12"]).swal.fired = [] ∧
    (Attendance.feed Attendance.matched
        { status := .str "ok", name := .str "Asha", student_id := .str "S101" }
        ["10:00:04", "10:00:08", "10:00:12"]).activeStudent = .str "S101" :=
  have h := (handleResult_duplicate_suppressed Attendance.matched
    { status := .str "ok", name := .str "Asha", student_id := .str "S101" }
    rfl (by decide) (by decide)).2.1 ["10:00:04", "10:00:08", "10:00:12"]
  ⟨by decide, h.1, h.2.1⟩

theorem logout_posts (s : Attendance.AttState) (o : Outcome)
    (h : truthy s.activeStudent = true) :
    (Attendance.logoutBtn_onclick s o).requests =
      s.requests ++ [Request.logout s.activeStudent] := by
  unfold Attendance.logoutBtn_onclick
  cases o with
  | failed msg => simp [h]
  | decoded j => by_cases hs : strictEq j.status (.str "ok") = true <;> simp [h, hs]

/-- C3, as stated, fails.  On the freshly loaded page a response with status
"ok" and the empty string as student_id makes the empty string the active
student, enables the logout control and fires one success dialog; the logout
clicked next is refused by the guard: no request, dialog "No active student". -/
theorem handleResult_new_match_counterexample :
    (Attendance.handleResult Attendance.pageLoad
        { status := .str "ok", name := .str "Asha", student_id := .str "" }
        "10:00:00").activeStudent = .str "" ∧
    (Attendance.handleResult Attendance.pageLoad
        { status := .str "ok", name := .str "Asha", student_id := .str "" }
        "10:00:00").logoutDisabled = false ∧
    (Attendance.handleResult Attendance.pageLoad
        { status := .str "ok", name := .str "Asha", student_id := .str "" }
        "10:00:00").swal.fired.length = 1 ∧
    (Attendance.logoutBtn_onclick
        (Attendance.handleResult Attendance.pageLoad
          { status := .str "ok", name := .str "Asha", student_id := .str "" } "10:00:00")
        (.decoded { status := .str "ok" })).requests = [] ∧
    (Attendance.logoutBtn_onclick
        (Attendance.handleResult Attendance.pageLoad
          { status := .str "ok", name := .str "Asha", student_id := .str "" } "10:00:00")
        (.decoded { status := .str "ok" })).swal.current =
      some { icon := some "info", title := .str "No active student", position := some "center" } := by
  refine ⟨?_, ?_, ?_, ?_, ?_⟩ <;> decide

/-- C3, amended.  For a response with status "ok" whose student_id differs
from the active student, or when none is active, `handleResult` makes the
student_id the active student, enables the logout control and fires exactly
one dialog, a success dialog.  When that student_id is truthy (a non-empty
string, a non-zero number, an object), the logout clicked next passes the
guard: it posts the identifier to the logout endpoint. -/
theorem handleResult_new_match (s : Attendance.AttState) (j : Response) (now : String)
    (hok : j.status = .str "ok")
    (hnew : truthy s.activeStudent = false ∨ strictEq s.activeStudent j.student_id = false) :
    (Attendance.handleResult s j now).activeStudent = j.student_id ∧
    (Attendance.handleResult s j now).logoutDisabled = false ∧
    (∃ a : Alert, a.icon = some "success" ∧
      (Attendance.handleResult s j now).swal.fired = s.swal.fired ++ [a]) ∧
    (truthy j.student_id = true → ∀ o : Outcome,
      (Attendance.logoutBtn_onclick (Attendance.handleResult s j now) o).requests =
          (Attendance.handleResult s j now).requests ++ [Request.logout j.student_id] ∧
      (Attendance.logoutBtn_onclick (Attendance.handleResult s j now) o).requests.map
          Request.endpoint = s.requests.map Request.endpoint ++ ["/api/logout"]) := by
  have h1 := handleResult_ok_new s j now hok hnew
  refine ⟨by rw [h1], by rw [h1], ⟨_, rfl, by rw [h1]; rfl⟩, ?_⟩
  intro hid o
  have hp := logout_posts (Attendance.handleResult s j now) o (by rw [h1]; exact hid)
  rw [hp, h1]
  simp [Request.endpoint]

/-- C3, amended, on the freshly loaded page receiving student S101. -/
theorem handleResult_new_match_witness :
    truthy Attendance.pageLoad.activeStudent = false ∧
    (Attendance.handleResult Attendance.pageLoad
        { status := .str "ok", name := .str "Asha", student_id := .str "S101" }
        "10:00:00").activeStudent = .str "S101" ∧
    (Attendance.handleResult Attendance.pageLoad
        { status := .str "ok", name := .str "Asha", student_id := .str "S101" }
        "10:00:00").logoutDisabled = false :=
  have h := handleResult_new_match Attendance.pageLoad
    { status := .str "ok", name := .str "Asha", student_id := .str "S101" } "10:00:00"
    rfl (Or.inl (by decide))
  ⟨by decide, h.1, h.2.1⟩

/-! ## Attendance: logout -/

/-- C5. With no active student the logout handler sends no request and
fires exactly one dialog, with the info icon; the state afterwards is the
state before with that dialog added and nothing else changed. -/
theorem logout_guard (s : Attendance.AttState) (o : Outcome)
    (h : truthy s.activeStudent = false) :
    (Attendance.logoutBtn_onclick s o).requests = s.requests ∧
    (∃ a : Alert, a.icon = some "info" ∧ a.title = .str "No active student" ∧
      (Attendance.logoutBtn_onclick s o).swal.fired = s.swal.fired ++ [a] ∧
      Attendance.logoutBtn_onclick s o = { s with swal := s.swal.fire a }) ∧
    (Attendance.logoutBtn_onclick s o).activeStudent = s.activeStudent ∧
    (Attendance.logoutBtn_onclick s o).logoutDisabled = s.logoutDisabled ∧
    (Attendance.logoutBtn_onclick s o).recognized = s.recognized ∧
    (Attendance.logoutBtn_onclick s o).confWidth = s.confWidth ∧
    (Attendance.logoutBtn_onclick s o).confText = s.confText ∧
    (Attendance.logoutBtn_onclick s o).confClasses = s.confClasses ∧
    (Attendance.logoutBtn_onclick s o).info = s.info ∧
    (Attendance.logoutBtn_onclick s o).stream = s.stream ∧
    (Attendance.logoutBtn_onclick s o).srcObject = s.srcObject ∧
    (Attendance.logoutBtn_onclick s o).streams = s.streams ∧
    (Attendance.logoutBtn_onclick s o).interval = s.interval ∧
    (Attendance.logoutBtn_onclick s o).timers = s.timers := by
  have e : Attendance.logoutBtn_onclick s o =
      { s with
        swal := s.swal.fire
          { icon := some "info", title := .str "No active student",
            position := some "center" } } := by
    unfold Attendance.logoutBtn_onclick
    simp [h]
  rw [e]
  exact ⟨rfl, ⟨_, rfl, rfl, rfl, rfl⟩, rfl, rfl, rfl, rfl, rfl, rfl, rfl, rfl, rfl, rfl, rfl, rfl⟩

/-- C5 on the freshly loaded page. -/
theorem logout_guard_witness :
    truthy Attendance.pageLoad.activeStudent = false ∧
    (Attendance.logoutBtn_onclick Attendance.pageLoad (.failed "Failed to fetch")).requests = [] :=
  ⟨by decide, (logout_guard Attendance.pageLoad (.failed "Failed to fetch") (by decide)).1⟩

/-- C6 fails on the code.  With student S101 active and the logout request
rejected, the handler has posted the identifier but the exception leaves it
before the reset: S101 is still active, the logout control still enabled, the
recognized name and the info text are as before, and no dialog was fired.
When the same request is answered, with status "ok" or with an error status,
the reset is carried out. -/
theorem logout_reset_skipped_on_rejection :
    (Attendance.logoutBtn_onclick Attendance.matched (.failed "Failed to fetch")).requests =
      [Request.logout (.str "S101")] ∧
    (Attendance.logoutBtn_onclick Attendance.matched (.failed "Failed to fetch")).activeStudent =
      .str "S101" ∧
    (Attendance.logoutBtn_onclick Attendance.matched (.failed "Failed to fetch")).logoutDisabled =
      false ∧
    (Attendance.logoutBtn_onclick Attendance.matched (.failed "Failed to fetch")).recognized =
      "Asha" ∧
    (Attendance.logoutBtn_onclick Attendance.matched (.failed "Failed to fetch")).info =
      "Attendance marked for Asha at 10:00:00" ∧
    (Attendance.logoutBtn_onclick Attendance.matched (.failed "Failed to fetch")).swal.fired = [] ∧
    (Attendance.logoutBtn_onclick Attendance.matched (.failed "Failed to fetch")).uncaught =
      ["Failed to fetch"] ∧
    (Attendance.logoutBtn_onclick Attendance.matched
        (.decoded { status := .str "ok" })).activeStudent = .null ∧
    (Attendance.logoutBtn_onclick Attendance.matched
        (.decoded { status := .str "ok" })).logoutDisabled = true ∧
    (Attendance.logoutBtn_onclick Attendance.matched
        (.decoded { status := .str "error" })).activeStudent = .null ∧
    (Attendance.logoutBtn_onclick Attendance.matched
        (.decoded { status := .str "error" })).logoutDisabled = true := by
  refine ⟨?_, ?_, ?_, ?_, ?_, ?_, ?_, ?_, ?_, ?_, ?_⟩ <;> decide

theorem logout_decoded (s : Attendance.AttState) (j : Response)
    (h : truthy s.activeStudent = true) :
    Attendance.logoutBtn_onclick s (.decoded j) =
      { s with
        requests := s.requests ++ [Request.logout s.activeStudent]
        swal := s.swal.fire
          (if strictEq j.status (.str "ok") = true then
            { icon := some "success", title := .str "✅ Logout recorded",
              position := some "center", timer := some 1500,
              showConfirmButton := false }
          else
            { icon := some "error", title := jsOr j.message (.str "Logout error"),
              position := some "center" })
        activeStudent := .null
        logoutDisabled := true
        recognized := "None"
        confWidth := "0%"
        confText := "0%"
        confClasses := classRemove s.confClasses ["bg-success", "bg-danger", "bg-warning"]
        info := "Waiting for recognition..." } := by
  unfold Attendance.logoutBtn_onclick
  by_cases hs : strictEq j.status (.str "ok") = true <;> simp [h, hs]

theorem classRemove_not_mem (cs rs : List String) (c : String) (h : c ∈ rs) :
    c ∉ classRemove cs rs := by
  simp [classRemove, h]

/-- The reset of the logout handler on every answered request.  With an active
student and a logout request whose response
decodes to a JSON object, whatever its status and message, the handler posts
the active identifier and ends with no active student, the logout control
disabled, the recognized name "None", the confidence bar at 0% without any
of the three status colour classes, and the waiting message as info text.
Two responses lead to states that differ in the dialogs only. -/
theorem logout_reset (s : Attendance.AttState) (j : Response)
    (h : truthy s.activeStudent = true) :
    (Attendance.logoutBtn_onclick s (.decoded j)).requests =
      s.requests ++ [Request.logout s.activeStudent] ∧
    (Attendance.logoutBtn_onclick s (.decoded j)).activeStudent = .null ∧
    (Attendance.logoutBtn_onclick s (.decoded j)).logoutDisabled = true ∧
    (Attendance.logoutBtn_onclick s (.decoded j)).recognized = "None" ∧
    (Attendance.logoutBtn_onclick s (.decoded j)).confWidth = "0%" ∧
    (Attendance.logoutBtn_onclick s (.decoded j)).confText = "0%" ∧
    "bg-success" ∉ (Attendance.logoutBtn_onclick s (.decoded j)).confClasses ∧
    "bg-danger" ∉ (Attendance.logoutBtn_onclick s (.decoded j)).confClasses ∧
    "bg-warning" ∉ (Attendance.logoutBtn_onclick s (.decoded j)).confClasses ∧
    (Attendance.logoutBtn_onclick s (.decoded j)).info = "Waiting for recognition..." ∧
    (∃ a : Alert,
      (Attendance.logoutBtn_onclick s (.decoded j)).swal.fired = s.swal.fired ++ [a]) ∧
    (∀ k : Response,
      { Attendance.logoutBtn_onclick s (.decoded j) with swal := s.swal } =
      { Attendance.logoutBtn_onclick s (.decoded k) with swal := s.swal }) := by
  rw [logout_decoded s j h]
  refine ⟨rfl, rfl, rfl, rfl, rfl, rfl, ?_, ?_, ?_, rfl, ⟨_, rfl⟩, ?_⟩
  · exact classRemove_not_mem _ _ _ (by simp)
  · exact classRemove_not_mem _ _ _ (by simp)
  · exact classRemove_not_mem _ _ _ (by simp)
  · intro k
    rw [logout_decoded s k h]

/-- The reset of the logout handler with student S101 active and the server
answering with an error status and no message. -/
theorem logout_reset_witness :
    truthy Attendance.matched.activeStudent = true ∧
    (Attendance.logoutBtn_onclick Attendance.matched
        (.decoded { status := .str "error" })).activeStudent = .null ∧
    (Attendance.logoutBtn_onclick Attendance.matched
        (.decoded { status := .str "error" })).logoutDisabled = true :=
  have h := logout_reset Attendance.matched { status := .str "error" } (by decide)
  ⟨by decide, h.2.1, h.2.2.1⟩

/-! ## Attendance: the active student between logouts -/

theorem handleResult_not_ok (s : Attendance.AttState) (j : Response) (now : String)
    (h : j.status ≠ .str "ok") :
    (Attendance.handleResult s j now).activeStudent = s.activeStudent ∧
    (Attendance.handleResult s j now).logoutDisabled = s.logoutDisabled := by
  have hst : strictEq j.status (.str "ok") = false := by
    cases hc : strictEq j.status (.str "ok") with
    | false => rfl
    | true => exact absurd ((strictEq_str _ _).1 hc) h
  unfold Attendance.handleResult
  by_cases hu : strictEq j.status (.str "unknown") = true
  · simp [hst, hu]
  · by_cases he : strictEq j.status (.str "error") = true <;> simp [hst, hu, he]

theorem handleResult_error (s : Attendance.AttState) (j : Response) (now : String)
    (h : j.status = .str "error") :
    Attendance.handleResult s j now =
      { s with
        info := toText (jsOr j.message (.str "No face detected"))
        confWidth := "20%"
        confText := "No face"
        confClasses := classAdd (classRemove s.confClasses ["bg-success"]) "bg-warning" } := by
  unfold Attendance.handleResult
  rw [h]
  simp [strictEq]

/-- C9, as stated, fails.  With student S101 active, a response with status
"ok" that carries no student_id replaces the active student by `undefined`:
no student is active afterwards, although no logout took place, and the
logout clicked next is refused. -/
theorem sticky_active_counterexample :
    truthy Attendance.matched.activeStudent = true ∧
    (Attendance.handleResult Attendance.matched
        { status := .str "ok", name := .str "Asha" } "10:00:04").activeStudent = .undefined ∧
    truthy (Attendance.handleResult Attendance.matched
        { status := .str "ok", name := .str "Asha" } "10:00:04").activeStudent = false ∧
    (Attendance.logoutBtn_onclick
        (Attendance.handleResult Attendance.matched
          { status := .str "ok", name := .str "Asha" } "10:00:04")
        (.decoded { status := .str "ok" })).requests = [] := by
  refine ⟨?_, ?_, ?_, ?_⟩ <;> decide

/-- C9, amended.  From a state with an active student, `handleResult` leaves
a student active for every response whose status is not "ok" and for every
response with status "ok" whose student_id is truthy; starting and stopping
the camera do not touch the active student.  For every status other than
"ok" the active student and the logout control are exactly unchanged, and
for status "unknown" the recognized name reads "Unknown". -/
theorem sticky_active (s : Attendance.AttState) (hset : truthy s.activeStudent = true) :
    (∀ (j : Response) (now : String),
      (j.status ≠ .str "ok" ∨ truthy j.student_id = true) →
      truthy (Attendance.handleResult s j now).activeStudent = true) ∧
    (∀ g : CameraGrant, (Attendance.startBtn_onclick s g).activeStudent = s.activeStudent) ∧
    (Attendance.stopCamera s).activeStudent = s.activeStudent ∧
    (Attendance.stopBtn_onclick s).activeStudent = s.activeStudent ∧
    (∀ (j : Response) (now : String), j.status ≠ .str "ok" →
      (Attendance.handleResult s j now).activeStudent = s.activeStudent ∧
      (Attendance.handleResult s j now).logoutDisabled = s.logoutDisabled) ∧
    (∀ (j : Response) (now : String), j.status = .str "unknown" →
      (Attendance.handleResult s j now).recognized = "Unknown") := by
  refine ⟨?_, ?_, rfl, rfl, ?_, ?_⟩
  · intro j now hj
    by_cases hok : j.status = .str "ok"
    · have hid : truthy j.student_id = true := by
        rcases hj with hj | hj
        · exact absurd hok hj
        · exact hj
      by_cases hc : strictEq s.activeStudent j.student_id = true
      · rw [handleResult_ok_active s j now hok hset hc]
        exact hset
      · rw [handleResult_ok_new s j now hok (Or.inr (by simpa using hc))]
        exact hid
    · rw [(handleResult_not_ok s j now hok).1]
      exact hset
  · intro g
    cases g <;> rfl
  · intro j now hj
    exact handleResult_not_ok s j now hj
  · intro j now hj
    unfold Attendance.handleResult
    rw [hj]
    simp [strictEq]

/-- C9, amended, with student S101 active and an unknown face on the next
tick. -/
theorem sticky_active_witness :
    truthy Attendance.matched.activeStudent = true ∧
    (Attendance.handleResult Attendance.matched { status := .str "unknown" }
        "10:00:04").activeStudent = .str "S101" ∧
    (Attendance.handleResult Attendance.matched { status := .str "unknown" }
        "10:00:04").recognized = "Unknown" :=
  have h := sticky_active Attendance.matched (by decide)
  ⟨by decide, (h.2.2.2.2.1 { status := .str "unknown" } "10:00:04" (by decide)).1,
    h.2.2.2.2.2 { status := .str "unknown" } "10:00:04" rfl⟩

/-! ## Attendance: error responses -/

/-- C10, as stated, fails.  An error response whose message is the number 0,
or the boolean false, provides a message that is neither absent nor empty,
yet the info text becomes the default "No face detected". -/
theorem handleResult_error_display_counterexample :
    (Attendance.handleResult Attendance.pageLoad
        { status := .str "error", message := .num "0" } "10:00:00").info =
      "No face detected" ∧
    (Attendance.handleResult Attendance.pageLoad
        { status := .str "error", message := .bool false } "10:00:00").info =
      "No face detected" ∧
    toStr (.num "0") = "0" ∧ toStr (.bool false) = "false" := by
  refine ⟨?_, ?_, ?_, ?_⟩ <;> decide

/-- C10, amended.  For a response with status "error", `handleResult` fires no
dialog; the info text becomes the message, converted to a string, when the
message is truthy, and "No face detected" when it is falsy.  In particular a
non-empty string message is shown as it is, and an absent, null or empty
message gives the default. -/
theorem handleResult_error_display (s : Attendance.AttState) (j : Response) (now : String)
    (h : j.status = .str "error") :
    (Attendance.handleResult s j now).swal = s.swal ∧
    (truthy j.message = true →
      (Attendance.handleResult s j now).info = toStr j.message) ∧
    (truthy j.message = false →
      (Attendance.handleResult s j now).info = "No face detected") ∧
    (∀ m : String, j.message = .str m → m ≠ "" →
      (Attendance.handleResult s j now).info = m) ∧
    ((j.message = .undefined ∨ j.message = .null ∨ j.message = .str "") →
      (Attendance.handleResult s j now).info = "No face detected") := by
  rw [handleResult_error s j now h]
  refine ⟨rfl, ?_, ?_, ?_, ?_⟩
  · intro ht
    cases hm : j.message <;> simp_all [jsOr, truthy, toText, toStr]
  · intro hf
    simp [jsOr, hf, toText, toStr]
  · intro m hm hne
    simp [hm, jsOr, truthy, hne, toText, toStr]
  · intro hm
    rcases hm with hm | hm | hm <;> simp [hm, jsOr, truthy, toText, toStr]

/-- C10, amended, at the scenario of the specification: message "no face". -/
theorem handleResult_error_display_witness :
    (Attendance.handleResult Attendance.pageLoad
        { status := .str "error", message := .str "no face" } "10:00:00").info = "no face" ∧
    (Attendance.handleResult Attendance.pageLoad
        { status := .str "error", message := .str "no face" } "10:00:00").swal.fired = [] :=
  have h := handleResult_error_display Attendance.pageLoad
    { status := .str "error", message := .str "no face" } "10:00:00" rfl
  ⟨h.2.2.2.1 "no face" rfl (by decide), by rw [h.1]; rfl⟩

/-! ## Attendance: the capture loop and the camera -/

/-- C7 fails on the code.  Start clicked twice (camera granted both times)
and then stop: the second start overwrote `interval`, so stop cancels timer 2
only.  Afterwards no stream is held, yet timer 1 is still scheduled, the one
track of the first stream is still live, and the next tick of timer 1 posts a
frame to the recognition endpoint.  After a single start, stop leaves no
timer. -/
theorem capture_loop_outlives_stop :
    (Attendance.run Attendance.pageLoad
        [.start (.granted 1), .start (.granted 1), .stop]).stream = none ∧
    (Attendance.run Attendance.pageLoad
        [.start (.granted 1), .start (.granted 1), .stop]).srcObject = none ∧
    (Attendance.run Attendance.pageLoad
        [.start (.granted 1), .start (.granted 1), .stop]).interval = some 2 ∧
    (Attendance.run Attendance.pageLoad
        [.start (.granted 1), .start (.granted 1), .stop]).timers = [1] ∧
    (Attendance.run Attendance.pageLoad
        [.start (.granted 1), .start (.granted 1), .stop]).streams = [[true], [false]] ∧
    (Attendance.run Attendance.pageLoad
        [.start (.granted 1), .start (.granted 1), .stop,
         .tick "data:," (.decoded { status := .str "error" }) "10:00:04"]).requests =
      [Request.login "data:,"] ∧
    (Attendance.run Attendance.pageLoad [.start (.granted 1), .stop]).timers = [] := by
  refine ⟨?_, ?_, ?_, ?_, ?_, ?_, ?_⟩ <;> decide

/-! ## Enrollment: after a successful enrollment -/

/-- C4 fails on the code.  Three photos captured, valid identifier and name,
the server answers "ok": the photo buffer and the thumbnails are emptied, the
count reads "0 images", the track of the stream is stopped and the video
source detached, but the variable `stream` still holds the stopped stream.
The capture clicked next is therefore not refused: it appends its frame to
the buffer and confirms the capture.  After the stop button, which also
clears `stream`, the capture is refused with "Start camera first". -/
theorem enroll_success_keeps_stream :
    (Enroll.enrollBtn_onclick Enroll.threePhotos Enroll.validForm
        (.decoded { status := .str "ok" })).photos = [] ∧
    (Enroll.enrollBtn_onclick Enroll.threePhotos Enroll.validForm
        (.decoded { status := .str "ok" })).thumbs = [] ∧
    (Enroll.enrollBtn_onclick Enroll.threePhotos Enroll.validForm
        (.decoded { status := .str "ok" })).count = "0 images" ∧
    (Enroll.enrollBtn_onclick Enroll.threePhotos Enroll.validForm
        (.decoded { status := .str "ok" })).streams = [[false]] ∧
    (Enroll.enrollBtn_onclick Enroll.threePhotos Enroll.validForm
        (.decoded { status := .str "ok" })).srcObject = none ∧
    (Enroll.enrollBtn_onclick Enroll.threePhotos Enroll.validForm
        (.decoded { status := .str "ok" })).stream = some 0 ∧
    (Enroll.takeBtn_onclick
        (Enroll.enrollBtn_onclick Enroll.threePhotos Enroll.validForm
          (.decoded { status := .str "ok" })) "data:,").photos = ["data:,"] ∧
    (Enroll.takeBtn_onclick
        (Enroll.enrollBtn_onclick Enroll.threePhotos Enroll.validForm
          (.decoded { status := .str "ok" })) "data:,").count = "1 images" ∧
    (Enroll.takeBtn_onclick
        (Enroll.enrollBtn_onclick Enroll.threePhotos Enroll.validForm
          (.decoded { status := .str "ok" })) "data:,").swal.current =
      some { icon := some "info", title := .str "📸 Captured successfully!",
             position := some "center", timer := some 800, showConfirmButton := false } ∧
    (Enroll.stopBtn_onclick Enroll.threePhotos).stream = none ∧
    (Enroll.takeBtn_onclick (Enroll.stopBtn_onclick Enroll.threePhotos) "data:,").photos =
      Enroll.threePhotos.photos ∧
    (Enroll.takeBtn_onclick (Enroll.stopBtn_onclick Enroll.threePhotos) "data:,").swal.current =
      some { icon := some "warning", title := .str "Start camera first",
             position := some "center", timer := some 1500, showConfirmButton := false } := by
  refine ⟨?_, ?_, ?_, ?_, ?_, ?_, ?_, ?_, ?_, ?_, ?_, ?_⟩ <;> decide

/-! ## Transport failures -/

/-- C8 fails on the code for logout and for the file upload.  When the request
is rejected, the logout handler and the upload listener let the exception
escape and fire no error dialog, and the upload listener leaves its progress
dialog, which cannot be dismissed by a click outside, on screen.  The
enroll handler, in the same situation, catches the exception, closes its
progress dialog and fires one error dialog. -/
theorem transport_failure_escapes :
    (Attendance.logoutBtn_onclick Attendance.matched (.failed "Failed to fetch")).uncaught =
      ["Failed to fetch"] ∧
    (Attendance.logoutBtn_onclick Attendance.matched (.failed "Failed to fetch")).swal.fired =
      [] ∧
    (Enroll.uploadBtn_click Enroll.threePhotos Enroll.validForm
        (.failed "Failed to fetch")).uncaught = ["Failed to fetch"] ∧
    (Enroll.uploadBtn_click Enroll.threePhotos Enroll.validForm
        (.failed "Failed to fetch")).swal.fired =
      [{ title := .str "Uploading photos...", allowOutsideClick := false, showLoading := true }] ∧
    (Enroll.uploadBtn_click Enroll.threePhotos Enroll.validForm
        (.failed "Failed to fetch")).swal.current =
      some { title := .str "Uploading photos...", allowOutsideClick := false,
             showLoading := true } ∧
    (Enroll.enrollBtn_onclick Enroll.threePhotos Enroll.validForm
        (.failed "Failed to fetch")).uncaught = [] ∧
    (Enroll.enrollBtn_onclick Enroll.threePhotos Enroll.validForm
        (.failed "Failed to fetch")).swal.fired =
      [{ title := .str "Processing enrollment...",
         text := some "Please wait while we save and verify faces",
         allowOutsideClick := false, showLoading := true },
       { icon := some "error", title := .str "Error during enrollment",
         text := some "Failed to fetch", position := some "center" }] ∧
    (Enroll.enrollBtn_onclick Enroll.threePhotos Enroll.validForm
        (.failed "Failed to fetch")).swal.current =
      some { icon := some "error", title := .str "Error during enrollment",
             text := some "Failed to fetch", position := some "center" } := by
  refine ⟨?_, ?_, ?_, ?_, ?_, ?_, ?_, ?_⟩ <;> decide

end StudentAttendance
